import Mathlib

/-!
# Verification of the IPython application startup pipeline (`IPython/core/ipapp.py`)

This file embeds, in Lean, the configuration-resolution and fault-isolated
startup logic of `src/IPython/core/ipapp.py`:

* a `ConfigTree` data model (section → key → dynamically typed value, with the
  `NoConfigDefault` "unset" sentinel as a distinguished value),
* the pipeline stage methods `load_file_config`, `post_load_file_config` and
  `pre_construct` of `IPythonApp`,
* the three fault-isolated runner passes `_load_extensions`, `_run_exec_lines`
  and `_run_exec_files` called from `post_construct`, modelled as state
  transformers over an explicit shell/log state, with the behaviour of the
  external shell (`load_extension`, `runlines`, `safe_execfile`,
  `safe_execfile_ipy`, `filefind`, `os.path.isfile`) supplied as an
  environment of oracles, and Python exceptions modelled with `Except`
  (the error payload carries the state at the raise point, since logging
  side effects persist across an exception),
* the three-source merge `default < file < commandLine` performed by the
  `Application` base class, which is not part of this repository snapshot;
  it is modelled from the spec (see `resolve`).

Python values in scope are booleans, ints, strings and lists of strings
(every list the code manipulates — `extensions`, `exec_lines`, `exec_files` —
holds strings, and the `-ext` flag is declared `type=str`), so `Value.list`
carries `List String`.  Python's numeric cross-type equality (`0 == False`)
is modelled by `pyEq`, and Python truthiness by `truthy`.
-/

/-- A dynamically typed configuration value.  `unset` is the
`NoConfigDefault` sentinel, distinct from every real value including
`bool false`, `int 0` and `str ""`. -/
inductive Value : Type
  | unset : Value
  | bool : Bool → Value
  | int : Int → Value
  | str : String → Value
  | list : List String → Value
  deriving Repr, DecidableEq

/-- Python truthiness of a value (`if config.Global.classic:`).  The
`NoConfigDefault` sentinel is a plain Python object, hence truthy. -/
def truthy : Value → Bool
  | Value.unset => true
  | Value.bool b => b
  | Value.int n => n != 0
  | Value.str s => !s.isEmpty
  | Value.list l => !l.isEmpty

/-- Numeric view of a Python value: `bool` is a subclass of `int`, with
`False = 0` and `True = 1`. -/
def pyNum : Value → Option Int
  | Value.bool b => some (if b then 1 else 0)
  | Value.int n => some n
  | _ => none

/-- Python `==` on the values in scope: numeric values compare through
`pyNum` (so `0 == False` holds), strings and lists compare structurally,
everything else is unequal except the sentinel to itself. -/
def pyEq (a b : Value) : Bool :=
  match pyNum a, pyNum b with
  | some m, some n => m == n
  | _, _ =>
    match a, b with
    | Value.str s, Value.str t => s == t
    | Value.list l, Value.list m => l == m
    | Value.unset, Value.unset => true
    | _, _ => false

/-- A hierarchical configuration store: a list of
(section, key, value) entries; `lookup` returns the most recent write. -/
def ConfigTree : Type := List (String × String × Value)

/-- The empty configuration (`Config()`). -/
def ConfigTree.empty : ConfigTree := []

/-- Look a (section, key) pair up; `none` models an absent attribute
(`hasattr` returning `False`). -/
def ConfigTree.lookup : ConfigTree → String → String → Option Value
  | [], _, _ => none
  | (s', k', v) :: rest, s, k =>
    if s' = s ∧ k' = k then some v else ConfigTree.lookup rest s k

/-- Write a (section, key) pair (`config.Sec.key = v`); sections are
created lazily, so a write needs no existing section. -/
def ConfigTree.set (t : ConfigTree) (s k : String) (v : Value) : ConfigTree :=
  (s, k, v) :: t

/-- Delete a key from a section (`del config.Sec['key']`). -/
def ConfigTree.del (t : ConfigTree) (s k : String) : ConfigTree :=
  t.filter (fun e => !(e.1 = s ∧ e.2.1 = k : Bool))

/-! ## Pipeline stage methods of `IPythonApp` (translated from the source) -/

/-- `IPythonApp.load_file_config` (ipapp.py lines 296–301): when
`Global.quick` is present and truthy in the command-line config, the file
config becomes an empty `Config()` and file loading is skipped; otherwise
the base class loads the configuration file, producing `fileSource`
(the tree the external loader parses from the file). -/
def load_file_config (clc : ConfigTree) (fileSource : ConfigTree) : ConfigTree :=
  match clc.lookup "Global" "quick" with
  | some v => if truthy v then ConfigTree.empty else fileSource
  | none => fileSource

/-- `IPythonApp.post_load_file_config` (ipapp.py lines 303–309): when
`Global.extra_extension` is present in the command-line config, append its
value to `file_config.Global.extensions` (creating the list if absent) and
delete the key from the command-line config.  Result is
`(command_line_config, file_config)` after the stage; `none` models the
stage raising (the existing `extensions` value is not a list, so
`.append` fails — a non-string `extra_extension` cannot arise, the `-ext`
flag being `type=str`, and is outside the model's value space). -/
def post_load_file_config (clc fc : ConfigTree) :
    Option (ConfigTree × ConfigTree) :=
  match clc.lookup "Global" "extra_extension" with
  | none => some (clc, fc)
  | some (Value.str e) =>
    match fc.lookup "Global" "extensions" with
    | none =>
      some (clc.del "Global" "extra_extension",
            fc.set "Global" "extensions" (Value.list [e]))
    | some (Value.list l) =>
      some (clc.del "Global" "extra_extension",
            fc.set "Global" "extensions" (Value.list (l ++ [e])))
    | some _ => none
  | some _ => none

/-- The settings written by the `classic` rule in `pre_construct`
(ipapp.py lines 314–325). -/
def applyClassic (t : ConfigTree) : ConfigTree :=
  ((((((((((t.set "InteractiveShell" "cache_size" (Value.int 0)
    ).set "InteractiveShell" "pprint" (Value.int 0)
    ).set "InteractiveShell" "prompt_in1" (Value.str ">>> ")
    ).set "InteractiveShell" "prompt_in2" (Value.str "... ")
    ).set "InteractiveShell" "prompt_out" (Value.str "")
    ).set "InteractiveShell" "separate_out2" (Value.str "")
    ).set "InteractiveShell" "separate_out" (Value.str "")
    ).set "InteractiveShell" "separate_in" (Value.str "")
    ).set "InteractiveShell" "colors" (Value.str "NoColor")
    ).set "InteractiveShell" "xmode" (Value.str "Plain"))

/-- The settings written by the `nosep` rule in `pre_construct`
(ipapp.py lines 331–335). -/
def applyNosep (t : ConfigTree) : ConfigTree :=
  (((t.set "InteractiveShell" "separate_out2" (Value.str "0")
    ).set "InteractiveShell" "separate_out" (Value.str "0")
    ).set "InteractiveShell" "separate_in" (Value.str "0"))

/-- The `classic` rule of `pre_construct` (ipapp.py lines 314–325),
guarded by `hasattr(config.Global, 'classic')` and truthiness. -/
def classicStep (t : ConfigTree) : ConfigTree :=
  match t.lookup "Global" "classic" with
  | some v => if truthy v then applyClassic t else t
  | none => t

/-- The `nosep` rule of `pre_construct` (ipapp.py lines 331–335),
guarded by `hasattr(config.Global, 'nosep')` and truthiness. -/
def nosepStep (t : ConfigTree) : ConfigTree :=
  match t.lookup "Global" "nosep" with
  | some v => if truthy v then applyNosep t else t
  | none => t

/-- `IPythonApp.pre_construct` (ipapp.py lines 311–335): apply the
`classic` derived-override rule, then the `nosep` rule, in that fixed
order. -/
def pre_construct (t : ConfigTree) : ConfigTree :=
  nosepStep (classicStep t)

/-- The (section `InteractiveShell`) keys written by the `classic` rule. -/
def classicKeys : List String :=
  ["cache_size", "pprint", "prompt_in1", "prompt_in2", "prompt_out",
   "separate_in", "separate_out", "separate_out2", "colors", "xmode"]

/-- The (section `InteractiveShell`) keys written by the `nosep` rule. -/
def nosepKeys : List String :=
  ["separate_in", "separate_out", "separate_out2"]

/-! ## Shell/log state and environment for the `post_construct` passes -/

/-- One message emitted through `self.log`. -/
inductive LogMsg : Type
  | debug : String → LogMsg
  | info : String → LogMsg
  | warn : String → LogMsg
  deriving Repr, DecidableEq

/-- Observable state accumulated by the startup passes: the log, the
actions dispatched to the shell (`load_extension`, `runlines`,
`safe_execfile`, `safe_execfile_ipy` — recorded at call time, whether or
not the call then raises), and the number of `showtraceback` calls. -/
structure ShellState : Type where
  logMsgs : List LogMsg
  loadedExtensions : List String
  ranLines : List String
  ranPyFiles : List String
  ranIpyFiles : List String
  tracebacks : Nat
  deriving Repr, DecidableEq

def ShellState.logDebug (st : ShellState) (m : String) : ShellState :=
  { st with logMsgs := st.logMsgs ++ [LogMsg.debug m] }

def ShellState.logInfo (st : ShellState) (m : String) : ShellState :=
  { st with logMsgs := st.logMsgs ++ [LogMsg.info m] }

def ShellState.logWarn (st : ShellState) (m : String) : ShellState :=
  { st with logMsgs := st.logMsgs ++ [LogMsg.warn m] }

def ShellState.showTraceback (st : ShellState) : ShellState :=
  { st with tracebacks := st.tracebacks + 1 }

def ShellState.attemptExt (st : ShellState) (e : String) : ShellState :=
  { st with loadedExtensions := st.loadedExtensions ++ [e] }

def ShellState.attemptLine (st : ShellState) (l : String) : ShellState :=
  { st with ranLines := st.ranLines ++ [l] }

def ShellState.ranPy (st : ShellState) (f : String) : ShellState :=
  { st with ranPyFiles := st.ranPyFiles ++ [f] }

def ShellState.ranIpy (st : ShellState) (f : String) : ShellState :=
  { st with ranIpyFiles := st.ranIpyFiles ++ [f] }

/-- The external collaborators of the passes, as oracles: whether each
shell call succeeds (`false` models the call raising), the `filefind`
path-search helper (which can itself raise), `os.path.isfile`, and the
application's config directory. -/
structure ShellEnv : Type where
  loadExtensionOk : String → Bool
  runlinesOk : String → Bool
  safeExecfileOk : String → Bool
  safeExecfileIpyOk : String → Bool
  filefind : String → List String → Except Unit String
  isfile : String → Bool
  ipythondir : String

/-- Python's `str.endswith`: the last `suf.length` characters of `s`
are exactly `suf`. -/
def strEndsWith (s suf : String) : Bool :=
  decide (suf.length ≤ s.length
    ∧ s.toList.drop (s.length - suf.length) = suf.toList)

/-- Python iteration over a configuration value (`for x in v:`): a list
yields its elements, a string yields its characters as one-character
strings, any other value is not iterable and raises `TypeError`. -/
def pyIter : Value → Except Unit (List String)
  | Value.list l => Except.ok l
  | Value.str s => Except.ok (s.toList.map (fun c => String.mk [c]))
  | _ => Except.error ()

/-- Inner loop of `IPythonApp._load_extensions` (ipapp.py lines 375–381):
each `load_extension` call sits in its own try/except, so a failure logs
a warning naming the extension, shows the traceback, and iteration
continues with the next extension.  This makes the loop total. -/
def extLoop (env : ShellEnv) : List String → ShellState → ShellState
  | [], st => st
  | ext :: rest, st =>
    let st1 := (st.logInfo ("Loading IPython extension: " ++ ext)).attemptExt ext
    let st2 :=
      if env.loadExtensionOk ext then st1
      else (st1.logWarn ("Error in loading extension: " ++ ext)).showTraceback
    extLoop env rest st2

/-- `IPythonApp._load_extensions` (ipapp.py lines 365–384): if
`Global.extensions` is absent the pass is a no-op; otherwise log a debug
message and iterate, the outer try/except turning a non-iterable value
into an "Unknown error" warning plus traceback. -/
def loadExtensionsRun (env : ShellEnv) (config : ConfigTree)
    (st : ShellState) : ShellState :=
  match config.lookup "Global" "extensions" with
  | none => st
  | some v =>
    let st1 := st.logDebug "Loading IPython extensions..."
    match pyIter v with
    | Except.ok exts => extLoop env exts st1
    | Except.error _ =>
      (st1.logWarn "Unknown error in loading extensions:").showTraceback

/-- Inner loop of `IPythonApp._run_exec_lines` (ipapp.py lines 392–398):
per-line try/except, same isolation shape as `extLoop`. -/
def lineLoop (env : ShellEnv) : List String → ShellState → ShellState
  | [], st => st
  | line :: rest, st =>
    let st1 := (st.logInfo ("Running code in user namespace: " ++ line)).attemptLine line
    let st2 :=
      if env.runlinesOk line then st1
      else (st1.logWarn ("Error in executing line in user namespace: " ++ line)).showTraceback
    lineLoop env rest st2

/-- `IPythonApp._run_exec_lines` (ipapp.py lines 386–401). -/
def runExecLinesRun (env : ShellEnv) (config : ConfigTree)
    (st : ShellState) : ShellState :=
  match config.lookup "Global" "exec_lines" with
  | none => st
  | some v =>
    let st1 := st.logDebug "Running code from Global.exec_lines..."
    match pyIter v with
    | Except.ok lines => lineLoop env lines st1
    | Except.error _ =>
      (st1.logWarn "Unknown error in handling Global.exec_lines:").showTraceback

/-- Inner loop of `IPythonApp._run_exec_files` (ipapp.py lines 408–418).
Unlike `extLoop` and `lineLoop` there is NO per-file try/except in the
source: a raising `filefind`, `safe_execfile` or `safe_execfile_ipy`
propagates to the pass's outer guard (`Except.error`, carrying the state
at the raise point).  A located path that is not a regular file is passed
over with no effect; a path with an unrecognized extension only logs a
warning. -/
def fileLoop (env : ShellEnv) : List String → ShellState → Except ShellState ShellState
  | [], st => Except.ok st
  | fname :: rest, st =>
    match env.filefind fname [".", env.ipythondir] with
    | Except.error _ => Except.error st
    | Except.ok full =>
      if env.isfile full then
        if strEndsWith full ".py" then
          let st1 := (st.logInfo ("Running file in user namespace: " ++ full)).ranPy full
          if env.safeExecfileOk full then fileLoop env rest st1
          else Except.error st1
        else if strEndsWith full ".ipy" then
          let st1 := (st.logInfo ("Running file in user namespace: " ++ full)).ranIpy full
          if env.safeExecfileIpyOk full then fileLoop env rest st1
          else Except.error st1
        else
          fileLoop env rest
            (st.logWarn ("File does not have a .py or .ipy extension: <" ++ full ++ ">"))
      else fileLoop env rest st

/-- `IPythonApp._run_exec_files` (ipapp.py lines 403–421): the outer
try/except catches anything `fileLoop` raises (and a non-iterable
`exec_files` value) as an "Unknown error" warning plus traceback, so the
pass as a whole never raises. -/
def runExecFilesRun (env : ShellEnv) (config : ConfigTree)
    (st : ShellState) : ShellState :=
  match config.lookup "Global" "exec_files" with
  | none => st
  | some v =>
    let st1 := st.logDebug "Running files in Global.exec_files..."
    match pyIter v with
    | Except.ok files =>
      match fileLoop env files st1 with
      | Except.ok st2 => st2
      | Except.error st2 =>
        (st2.logWarn "Unknown error in handling Global.exec_files:").showTraceback
    | Except.error _ =>
      (st1.logWarn "Unknown error in handling Global.exec_files:").showTraceback

/-- The three fault-isolated runner passes as called, in fixed order, from
`IPythonApp.post_construct` (ipapp.py lines 361–363): extensions, then
statements, then files.  Each pass is total, so no pass can prevent a
later one from running. -/
def postConstructActions (env : ShellEnv) (config : ConfigTree)
    (st : ShellState) : ShellState :=
  runExecFilesRun env config (runExecLinesRun env config (loadExtensionsRun env config st))

/-! ## The three-source merge -/

/-- Modelled from the spec: the merge of `default_config`, `file_config`
and `command_line_config` into `master_config` is performed by the
`Application` base class (`IPython.core.application`), which is not part
of this repository snapshot.  Following §4.1 of the spec: precedence, low
to high, is `defaultConfig < fileConfig < commandLineConfig`; for each
(section, key) the value from the highest-precedence source that has the
key present wins, and a command-line key holding the "unset" sentinel is
treated as absent, never shadowing a value supplied by the file or
default tree.  `resolve d f c s k` is the merged MasterConfig's value at
(section `s`, key `k`). -/
def resolve (d f c : ConfigTree) (s k : String) : Option Value :=
  let fromCl :=
    match c.lookup s k with
    | some Value.unset => none
    | ov => ov
  match fromCl with
  | some v => some v
  | none =>
    match f.lookup s k with
    | some v => some v
    | none => d.lookup s k

/-! ## Basic lemmas on the configuration store -/

theorem ConfigTree.lookup_set (t : ConfigTree) (s k s' k' : String) (v : Value) :
    (t.set s k v).lookup s' k' =
      if s = s' ∧ k = k' then some v else t.lookup s' k' := by
  simp [ConfigTree.set, ConfigTree.lookup]

theorem ConfigTree.lookup_del (t : ConfigTree) (s k s' k' : String) :
    (t.del s k).lookup s' k' =
      if s = s' ∧ k = k' then none else t.lookup s' k' := by
  induction t with
  | nil =>
    simp [ConfigTree.del, ConfigTree.lookup, ite_self]
  | cons e rest ih =>
    obtain ⟨es, ek, ev⟩ := e
    by_cases hm : es = s ∧ ek = k
    · have hdrop : ConfigTree.del ((es, ek, ev) :: rest) s k
          = ConfigTree.del rest s k := by
        simp [ConfigTree.del, List.filter_cons, hm]
      rw [hdrop, ih]
      by_cases hc : s = s' ∧ k = k'
      · simp [hc]
      · have hne : ¬(es = s' ∧ ek = k') := by
          rintro ⟨h1, h2⟩
          exact hc ⟨hm.1.symm.trans h1, hm.2.symm.trans h2⟩
        simp [ConfigTree.lookup, hc, hne]
    · have hkeep : ConfigTree.del ((es, ek, ev) :: rest) s k
          = (es, ek, ev) :: ConfigTree.del rest s k := by
        simp [ConfigTree.del, List.filter_cons, hm]
      rw [hkeep]
      by_cases hh : es = s' ∧ ek = k'
      · have hc : ¬(s = s' ∧ k = k') := by
          rintro ⟨h1, h2⟩
          exact hm ⟨hh.1.trans h1.symm, hh.2.trans h2.symm⟩
        simp [ConfigTree.lookup, hh, hc]
      · simp [ConfigTree.lookup, hh, ih]

/-! ## Lemmas on the derived-override rules -/

theorem applyClassic_lookup_other (t : ConfigTree) (s k : String)
    (h : s = "InteractiveShell" → k ∉ classicKeys) :
    (applyClassic t).lookup s k = t.lookup s k := by
  by_cases hs : s = "InteractiveShell"
  · have hk := h hs
    simp only [classicKeys, List.mem_cons, List.not_mem_nil, or_false, not_or] at hk
    obtain ⟨k1, k2, k3, k4, k5, k6, k7, k8, k9, k10⟩ := hk
    have k1' := Ne.symm k1
    have k2' := Ne.symm k2
    have k3' := Ne.symm k3
    have k4' := Ne.symm k4
    have k5' := Ne.symm k5
    have k6' := Ne.symm k6
    have k7' := Ne.symm k7
    have k8' := Ne.symm k8
    have k9' := Ne.symm k9
    have k10' := Ne.symm k10
    subst hs
    simp [applyClassic, ConfigTree.lookup_set,
      k1', k2', k3', k4', k5', k6', k7', k8', k9', k10']
  · have hs' := Ne.symm hs
    simp [applyClassic, ConfigTree.lookup_set, hs']

theorem applyNosep_lookup_other (t : ConfigTree) (s k : String)
    (h : s = "InteractiveShell" → k ∉ nosepKeys) :
    (applyNosep t).lookup s k = t.lookup s k := by
  by_cases hs : s = "InteractiveShell"
  · have hk := h hs
    simp only [nosepKeys, List.mem_cons, List.not_mem_nil, or_false, not_or] at hk
    obtain ⟨k1, k2, k3⟩ := hk
    have k1' := Ne.symm k1
    have k2' := Ne.symm k2
    have k3' := Ne.symm k3
    subst hs
    simp [applyNosep, ConfigTree.lookup_set, k1', k2', k3']
  · have hs' := Ne.symm hs
    simp [applyNosep, ConfigTree.lookup_set, hs']

theorem classicStep_of_truthy (t : ConfigTree) (v : Value)
    (hc : t.lookup "Global" "classic" = some v) (hv : truthy v = true) :
    classicStep t = applyClassic t := by
  unfold classicStep
  rw [hc]
  simp [hv]

theorem nosepStep_of_truthy (t : ConfigTree) (w : Value)
    (hn : t.lookup "Global" "nosep" = some w) (hw : truthy w = true) :
    nosepStep t = applyNosep t := by
  unfold nosepStep
  rw [hn]
  simp [hw]

theorem nosepStep_of_inactive (t : ConfigTree)
    (hn : ∀ w, t.lookup "Global" "nosep" = some w → truthy w = false) :
    nosepStep t = t := by
  unfold nosepStep
  cases hnl : t.lookup "Global" "nosep" with
  | none => rfl
  | some w => simp [hn w hnl]

/-! ## Claim theorems -/

/-- C2: if `Global.classic` is truthy in the master config when
`pre_construct` runs (and the `nosep` rule does not fire), the resulting
config holds exactly the derived settings `cache_size = 0`, `pprint = 0`
(the Python int `0`, which Python-equals `False`), `prompt_in1 = '>>> '`,
`prompt_in2 = '... '`, `prompt_out = ''`, `separate_in = separate_out =
separate_out2 = ''`, `colors = 'NoColor'`, `xmode = 'Plain'` in section
`InteractiveShell`, and every other (section, key) is unchanged. -/
theorem classic_rule_exact (t : ConfigTree) (v : Value)
    (hc : t.lookup "Global" "classic" = some v)
    (hv : truthy v = true)
    (hns : ∀ w, t.lookup "Global" "nosep" = some w → truthy w = false) :
    ((pre_construct t).lookup "InteractiveShell" "cache_size" = some (Value.int 0)
    ∧ (pre_construct t).lookup "InteractiveShell" "pprint" = some (Value.int 0)
    ∧ pyEq (Value.int 0) (Value.bool false) = true
    ∧ (pre_construct t).lookup "InteractiveShell" "prompt_in1" = some (Value.str ">>> ")
    ∧ (pre_construct t).lookup "InteractiveShell" "prompt_in2" = some (Value.str "... ")
    ∧ (pre_construct t).lookup "InteractiveShell" "prompt_out" = some (Value.str "")
    ∧ (pre_construct t).lookup "InteractiveShell" "separate_in" = some (Value.str "")
    ∧ (pre_construct t).lookup "InteractiveShell" "separate_out" = some (Value.str "")
    ∧ (pre_construct t).lookup "InteractiveShell" "separate_out2" = some (Value.str "")
    ∧ (pre_construct t).lookup "InteractiveShell" "colors" = some (Value.str "NoColor")
    ∧ (pre_construct t).lookup "InteractiveShell" "xmode" = some (Value.str "Plain"))
    ∧ ∀ s k, (s = "InteractiveShell" → k ∉ classicKeys) →
        (pre_construct t).lookup s k = t.lookup s k := by
  have hpre : pre_construct t = applyClassic t := by
    unfold pre_construct
    rw [classicStep_of_truthy t v hc hv]
    apply nosepStep_of_inactive
    intro w hw
    have hg : (applyClassic t).lookup "Global" "nosep" = t.lookup "Global" "nosep" :=
      applyClassic_lookup_other t "Global" "nosep"
        (fun h => absurd h (by decide))
    exact hns w (hg ▸ hw)
  rw [hpre]
  constructor
  · refine ⟨?_, ?_, by decide, ?_, ?_, ?_, ?_, ?_, ?_, ?_, ?_⟩ <;>
      simp [applyClassic, ConfigTree.lookup_set]
  · intro s k hk
    exact applyClassic_lookup_other t s k hk

/-- Witness for C2 at the concrete config `{Global.classic = True}`. -/
theorem classic_rule_exact_witness :
    (pre_construct (ConfigTree.set ConfigTree.empty "Global" "classic"
        (Value.bool true))).lookup "InteractiveShell" "cache_size"
      = some (Value.int 0) :=
  (classic_rule_exact
    (ConfigTree.set ConfigTree.empty "Global" "classic" (Value.bool true))
    (Value.bool true) rfl rfl
    (fun w hw => by
      simp [ConfigTree.set, ConfigTree.empty, ConfigTree.lookup] at hw)).1.1

/-- C3: if both `Global.classic` and `Global.nosep` are truthy when
`pre_construct` runs, the separators `separate_in`, `separate_out`,
`separate_out2` all end up `'0'` (and `'0' ≠ ''`): the `nosep` rule runs
after the `classic` rule in fixed order, so its separator values win,
while the other classic settings (e.g. `colors`) remain in force. -/
theorem classic_nosep_separators (t : ConfigTree) (v w : Value)
    (hc : t.lookup "Global" "classic" = some v) (hv : truthy v = true)
    (hn : t.lookup "Global" "nosep" = some w) (hw : truthy w = true) :
    (pre_construct t).lookup "InteractiveShell" "separate_in" = some (Value.str "0")
    ∧ (pre_construct t).lookup "InteractiveShell" "separate_out" = some (Value.str "0")
    ∧ (pre_construct t).lookup "InteractiveShell" "separate_out2" = some (Value.str "0")
    ∧ (Value.str "0" : Value) ≠ Value.str ""
    ∧ (pre_construct t).lookup "InteractiveShell" "colors" = some (Value.str "NoColor") := by
  have hpre : pre_construct t = applyNosep (applyClassic t) := by
    unfold pre_construct
    rw [classicStep_of_truthy t v hc hv]
    apply nosepStep_of_truthy _ w _ hw
    rw [applyClassic_lookup_other t "Global" "nosep"
      (fun h => absurd h (by decide))]
    exact hn
  rw [hpre]
  refine ⟨?_, ?_, ?_, by decide, ?_⟩ <;>
    simp [applyNosep, applyClassic, ConfigTree.lookup_set]

/-- Witness for C3 at `{Global.classic = True, Global.nosep = True}`. -/
theorem classic_nosep_separators_witness :
    (pre_construct (ConfigTree.set
        (ConfigTree.set ConfigTree.empty "Global" "classic" (Value.bool true))
        "Global" "nosep" (Value.bool true))).lookup
      "InteractiveShell" "separate_in" = some (Value.str "0") :=
  (classic_nosep_separators
    (ConfigTree.set
      (ConfigTree.set ConfigTree.empty "Global" "classic" (Value.bool true))
      "Global" "nosep" (Value.bool true))
    (Value.bool true) (Value.bool true) rfl rfl rfl rfl).1

/-! ## Lemmas on the fault-isolated loops -/

theorem extLoop_attempts_all (env : ShellEnv) (exts : List String) (st : ShellState) :
    (extLoop env exts st).loadedExtensions = st.loadedExtensions ++ exts := by
  induction exts generalizing st with
  | nil => simp [extLoop]
  | cons e rest ih =>
    cases h : env.loadExtensionOk e <;>
      simp [extLoop, h, ih, ShellState.logInfo, ShellState.attemptExt,
        ShellState.logWarn, ShellState.showTraceback]

theorem extLoop_mem_logMsgs (env : ShellEnv) (exts : List String)
    (st : ShellState) (m : LogMsg) (h : m ∈ st.logMsgs) :
    m ∈ (extLoop env exts st).logMsgs := by
  induction exts generalizing st with
  | nil => simpa [extLoop] using h
  | cons e rest ih =>
    cases he : env.loadExtensionOk e <;>
      [exact ih _ (by simp [extLoop, he, ShellState.logInfo, ShellState.attemptExt,
          ShellState.logWarn, ShellState.showTraceback, h]);
       exact ih _ (by simp [extLoop, he, ShellState.logInfo, ShellState.attemptExt, h])]

theorem extLoop_warn_mem (env : ShellEnv) (exts : List String)
    (st : ShellState) (e : String) (hf : env.loadExtensionOk e = false)
    (he : e ∈ exts) :
    LogMsg.warn ("Error in loading extension: " ++ e)
      ∈ (extLoop env exts st).logMsgs := by
  induction exts generalizing st with
  | nil => cases he
  | cons x rest ih =>
    rcases List.mem_cons.mp he with rfl | hmem
    · have hstep : extLoop env (e :: rest) st
          = extLoop env rest
              ((((st.logInfo ("Loading IPython extension: " ++ e)).attemptExt e).logWarn
                  ("Error in loading extension: " ++ e)).showTraceback) := by
        simp [extLoop, hf]
      rw [hstep]
      apply extLoop_mem_logMsgs
      simp [ShellState.logInfo, ShellState.attemptExt, ShellState.logWarn,
        ShellState.showTraceback]
    · cases hx : env.loadExtensionOk x
      · have hstep : extLoop env (x :: rest) st
            = extLoop env rest
                ((((st.logInfo ("Loading IPython extension: " ++ x)).attemptExt x).logWarn
                    ("Error in loading extension: " ++ x)).showTraceback) := by
          simp [extLoop, hx]
        rw [hstep]
        exact ih _ hmem
      · have hstep : extLoop env (x :: rest) st
            = extLoop env rest
                ((st.logInfo ("Loading IPython extension: " ++ x)).attemptExt x) := by
          simp [extLoop, hx]
        rw [hstep]
        exact ih _ hmem

theorem lineLoop_attempts_all (env : ShellEnv) (lines : List String) (st : ShellState) :
    (lineLoop env lines st).ranLines = st.ranLines ++ lines := by
  induction lines generalizing st with
  | nil => simp [lineLoop]
  | cons l rest ih =>
    cases h : env.runlinesOk l <;>
      simp [lineLoop, h, ih, ShellState.logInfo, ShellState.attemptLine,
        ShellState.logWarn, ShellState.showTraceback]

theorem lineLoop_mem_logMsgs (env : ShellEnv) (lines : List String)
    (st : ShellState) (m : LogMsg) (h : m ∈ st.logMsgs) :
    m ∈ (lineLoop env lines st).logMsgs := by
  induction lines generalizing st with
  | nil => simpa [lineLoop] using h
  | cons l rest ih =>
    cases hl : env.runlinesOk l <;>
      [exact ih _ (by simp [lineLoop, hl, ShellState.logInfo, ShellState.attemptLine,
          ShellState.logWarn, ShellState.showTraceback, h]);
       exact ih _ (by simp [lineLoop, hl, ShellState.logInfo, ShellState.attemptLine, h])]

theorem lineLoop_warn_mem (env : ShellEnv) (lines : List String)
    (st : ShellState) (l : String) (hf : env.runlinesOk l = false)
    (hl : l ∈ lines) :
    LogMsg.warn ("Error in executing line in user namespace: " ++ l)
      ∈ (lineLoop env lines st).logMsgs := by
  induction lines generalizing st with
  | nil => cases hl
  | cons x rest ih =>
    rcases List.mem_cons.mp hl with rfl | hmem
    · have hstep : lineLoop env (l :: rest) st
          = lineLoop env rest
              ((((st.logInfo ("Running code in user namespace: " ++ l)).attemptLine l).logWarn
                  ("Error in executing line in user namespace: " ++ l)).showTraceback) := by
        simp [lineLoop, hf]
      rw [hstep]
      apply lineLoop_mem_logMsgs
      simp [ShellState.logInfo, ShellState.attemptLine, ShellState.logWarn,
        ShellState.showTraceback]
    · cases hx : env.runlinesOk x
      · have hstep : lineLoop env (x :: rest) st
            = lineLoop env rest
                ((((st.logInfo ("Running code in user namespace: " ++ x)).attemptLine x).logWarn
                    ("Error in executing line in user namespace: " ++ x)).showTraceback) := by
          simp [lineLoop, hx]
        rw [hstep]
        exact ih _ hmem
      · have hstep : lineLoop env (x :: rest) st
            = lineLoop env rest
                ((st.logInfo ("Running code in user namespace: " ++ x)).attemptLine x) := by
          simp [lineLoop, hx]
        rw [hstep]
        exact ih _ hmem

/-- C8: with `Global.extensions = ['a', 'b', 'c']` and loading `'b'`
raising, the extensions pass still attempts and completes loading of
`'c'`, and exactly one warning — the one naming `'b'` — is logged: the
resulting state appends precisely one debug message, the three per-action
info messages, one warning for `'b'`, records all three attempts and one
traceback. -/
theorem extensions_b_fails_c_still_loaded (env : ShellEnv) (st : ShellState)
    (ha : env.loadExtensionOk "a" = true)
    (hb : env.loadExtensionOk "b" = false)
    (hc : env.loadExtensionOk "c" = true) :
    loadExtensionsRun env
        (ConfigTree.set ConfigTree.empty "Global" "extensions"
          (Value.list ["a", "b", "c"])) st =
      { st with
        logMsgs := st.logMsgs ++
          [LogMsg.debug "Loading IPython extensions...",
           LogMsg.info "Loading IPython extension: a",
           LogMsg.info "Loading IPython extension: b",
           LogMsg.warn "Error in loading extension: b",
           LogMsg.info "Loading IPython extension: c"],
        loadedExtensions := st.loadedExtensions ++ ["a", "b", "c"],
        tracebacks := st.tracebacks + 1 }
    ∧ List.countP (fun m => m == LogMsg.warn "Error in loading extension: b")
        [LogMsg.debug "Loading IPython extensions...",
         LogMsg.info "Loading IPython extension: a",
         LogMsg.info "Loading IPython extension: b",
         LogMsg.warn "Error in loading extension: b",
         LogMsg.info "Loading IPython extension: c"] = 1 := by
  refine ⟨?_, by decide⟩
  simp [loadExtensionsRun, ConfigTree.set, ConfigTree.empty, ConfigTree.lookup,
    pyIter, extLoop, ha, hb, hc, ShellState.logDebug, ShellState.logInfo,
    ShellState.logWarn, ShellState.showTraceback, ShellState.attemptExt]

/-- Witness for C8 in a concrete environment where only `'b'` fails. -/
theorem extensions_b_fails_c_still_loaded_witness :
    (loadExtensionsRun
      ⟨fun e => !(e == "b"), fun _ => true, fun _ => true, fun _ => true,
       fun f _ => Except.ok f, fun _ => true, "ipdir"⟩
      (ConfigTree.set ConfigTree.empty "Global" "extensions"
        (Value.list ["a", "b", "c"]))
      ⟨[], [], [], [], [], 0⟩).loadedExtensions = ["a", "b", "c"] := by
  have h := extensions_b_fails_c_still_loaded
    ⟨fun e => !(e == "b"), fun _ => true, fun _ => true, fun _ => true,
     fun f _ => Except.ok f, fun _ => true, "ipdir"⟩
    ⟨[], [], [], [], [], 0⟩ rfl rfl rfl
  rw [h.1]
  rfl

/-- C7: an outer-guard failure in the extensions pass — the
`Global.extensions` value is not iterable, so the failure is not
attributable to any single action — logs the pass's "Unknown error"
warning, surfaces a traceback, loads no extension, and the statements and
files passes still run, from exactly the state the failed pass left
behind. -/
theorem outer_guard_pass_isolation (env : ShellEnv) (cfg : ConfigTree)
    (st : ShellState) (v : Value)
    (he : cfg.lookup "Global" "extensions" = some v)
    (hm : pyIter v = Except.error ()) :
    postConstructActions env cfg st =
      runExecFilesRun env cfg (runExecLinesRun env cfg
        (((st.logDebug "Loading IPython extensions...").logWarn
            "Unknown error in loading extensions:").showTraceback))
    ∧ (loadExtensionsRun env cfg st).loadedExtensions = st.loadedExtensions := by
  have h1 : loadExtensionsRun env cfg st =
      ((st.logDebug "Loading IPython extensions...").logWarn
          "Unknown error in loading extensions:").showTraceback := by
    simp [loadExtensionsRun, he, hm]
  constructor
  · unfold postConstructActions
    rw [h1]
  · rw [h1]
    simp [ShellState.logDebug, ShellState.logWarn, ShellState.showTraceback]

/-- Witness for C7: `Global.extensions` is the integer `3`, hence not
iterable; the extensions pass loads nothing (and, by the theorem, the
later passes run from the unknown-error state). -/
theorem outer_guard_pass_isolation_witness :
    (loadExtensionsRun
      ⟨fun _ => true, fun _ => true, fun _ => true, fun _ => true,
       fun f _ => Except.ok f, fun _ => true, "ipdir"⟩
      (ConfigTree.set ConfigTree.empty "Global" "extensions" (Value.int 3))
      ⟨[], [], [], [], [], 0⟩).loadedExtensions = [] :=
  (outer_guard_pass_isolation
    ⟨fun _ => true, fun _ => true, fun _ => true, fun _ => true,
     fun f _ => Except.ok f, fun _ => true, "ipdir"⟩
    (ConfigTree.set ConfigTree.empty "Global" "extensions" (Value.int 3))
    ⟨[], [], [], [], [], 0⟩ (Value.int 3) rfl rfl).2

/-- C1 counterexample: the claim says every pass wraps each `perform`
individually, so one action's failure never skips the remaining actions.
In the files pass this is false: with `Global.exec_files =
['a.py', 'b.py']`, both files found and regular, and executing `a.py`
raising, the pass stops at the outer guard — `b.py` is never dispatched
(`ranPyFiles = ['a.py']` only), and the only warning is the pass-level
"Unknown error", not one naming `a.py`. -/
theorem per_action_isolation_counterexample :
    runExecFilesRun
      ⟨fun _ => true, fun _ => true, fun _ => false, fun _ => true,
       fun f _ => Except.ok f, fun _ => true, "ipdir"⟩
      (ConfigTree.set ConfigTree.empty "Global" "exec_files"
        (Value.list ["a.py", "b.py"]))
      ⟨[], [], [], [], [], 0⟩ =
      ⟨[LogMsg.debug "Running files in Global.exec_files...",
        LogMsg.info "Running file in user namespace: a.py",
        LogMsg.warn "Unknown error in handling Global.exec_files:"],
       [], [], ["a.py"], [], 1⟩ := by
  rfl

/-- C1 (amended): in the extensions and statements passes, every action in
the list is attempted in order no matter which actions fail, and each
failing action gets a warning naming it; in the files pass, by contrast,
only the outer guard wraps the loop, so a failing file execution aborts
the remaining files of that pass (see the counterexample). -/
theorem per_action_isolation_ext_lines (env : ShellEnv) (cfg : ConfigTree)
    (st : ShellState) (exts lines : List String)
    (he : cfg.lookup "Global" "extensions" = some (Value.list exts))
    (hl : cfg.lookup "Global" "exec_lines" = some (Value.list lines)) :
    ((loadExtensionsRun env cfg st).loadedExtensions = st.loadedExtensions ++ exts
    ∧ ∀ e ∈ exts, env.loadExtensionOk e = false →
        LogMsg.warn ("Error in loading extension: " ++ e)
          ∈ (loadExtensionsRun env cfg st).logMsgs)
    ∧ ((runExecLinesRun env cfg st).ranLines = st.ranLines ++ lines
    ∧ ∀ l ∈ lines, env.runlinesOk l = false →
        LogMsg.warn ("Error in executing line in user namespace: " ++ l)
          ∈ (runExecLinesRun env cfg st).logMsgs) := by
  have h1 : loadExtensionsRun env cfg st
      = extLoop env exts (st.logDebug "Loading IPython extensions...") := by
    simp [loadExtensionsRun, he, pyIter]
  have h2 : runExecLinesRun env cfg st
      = lineLoop env lines (st.logDebug "Running code from Global.exec_lines...") := by
    simp [runExecLinesRun, hl, pyIter]
  refine ⟨⟨?_, ?_⟩, ?_, ?_⟩
  · rw [h1, extLoop_attempts_all]
    simp [ShellState.logDebug]
  · intro e hmem hfail
    rw [h1]
    exact extLoop_warn_mem env exts _ e hfail hmem
  · rw [h2, lineLoop_attempts_all]
    simp [ShellState.logDebug]
  · intro l hmem hfail
    rw [h2]
    exact lineLoop_warn_mem env lines _ l hfail hmem

/-- Witness for the amended C1: with extensions `['a', 'b']` where `'a'`
fails and one statement, both extensions are still attempted. -/
theorem per_action_isolation_ext_lines_witness :
    (loadExtensionsRun
      ⟨fun e => e == "b", fun _ => true, fun _ => true, fun _ => true,
       fun f _ => Except.ok f, fun _ => true, "ipdir"⟩
      (ConfigTree.set
        (ConfigTree.set ConfigTree.empty "Global" "extensions"
          (Value.list ["a", "b"]))
        "Global" "exec_lines" (Value.list ["x = 1"]))
      ⟨[], [], [], [], [], 0⟩).loadedExtensions = ["a", "b"] :=
  (per_action_isolation_ext_lines
    ⟨fun e => e == "b", fun _ => true, fun _ => true, fun _ => true,
     fun f _ => Except.ok f, fun _ => true, "ipdir"⟩
    (ConfigTree.set
      (ConfigTree.set ConfigTree.empty "Global" "extensions"
        (Value.list ["a", "b"]))
      "Global" "exec_lines" (Value.list ["x = 1"]))
    ⟨[], [], [], [], [], 0⟩ ["a", "b"] ["x = 1"] rfl rfl).1.1

/-- C6: with `Global.exec_files = ['a.py', 'b.ipy', 'c.txt']`, each entry
located on the search path `['.', ipythondir]` and naming a regular file,
and both executions succeeding, the files pass dispatches `a.py` through
`safe_execfile`, `b.ipy` through the distinct `safe_execfile_ipy` mode,
and for `c.txt` appends only the unrecognized-extension warning — no
traceback, no unknown-error, nothing raised out of the pass. -/
theorem files_dispatch_by_extension (env : ShellEnv) (st : ShellState)
    (t : ConfigTree)
    (h1 : env.filefind "a.py" [".", env.ipythondir] = Except.ok "a.py")
    (h2 : env.filefind "b.ipy" [".", env.ipythondir] = Except.ok "b.ipy")
    (h3 : env.filefind "c.txt" [".", env.ipythondir] = Except.ok "c.txt")
    (hia : env.isfile "a.py" = true) (hib : env.isfile "b.ipy" = true)
    (hic : env.isfile "c.txt" = true)
    (hxa : env.safeExecfileOk "a.py" = true)
    (hxb : env.safeExecfileIpyOk "b.ipy" = true) :
    runExecFilesRun env
      (ConfigTree.set t "Global" "exec_files"
        (Value.list ["a.py", "b.ipy", "c.txt"])) st =
      { st with
        logMsgs := st.logMsgs ++
          [LogMsg.debug "Running files in Global.exec_files...",
           LogMsg.info "Running file in user namespace: a.py",
           LogMsg.info "Running file in user namespace: b.ipy",
           LogMsg.warn "File does not have a .py or .ipy extension: <c.txt>"],
        ranPyFiles := st.ranPyFiles ++ ["a.py"],
        ranIpyFiles := st.ranIpyFiles ++ ["b.ipy"] } := by
  have e1 : strEndsWith "a.py" ".py" = true := by decide
  have e2 : strEndsWith "b.ipy" ".py" = false := by decide
  have e3 : strEndsWith "b.ipy" ".ipy" = true := by decide
  have e4 : strEndsWith "c.txt" ".py" = false := by decide
  have e5 : strEndsWith "c.txt" ".ipy" = false := by decide
  simp [runExecFilesRun, ConfigTree.lookup_set, pyIter, fileLoop,
    h1, h2, h3, hia, hib, hic, hxa, hxb, e1, e2, e3, e4, e5,
    ShellState.logDebug, ShellState.logInfo, ShellState.logWarn,
    ShellState.ranPy, ShellState.ranIpy]

/-- Witness for C6 in a concrete environment where every listed file is
found as itself and every execution succeeds. -/
theorem files_dispatch_by_extension_witness :
    runExecFilesRun
      ⟨fun _ => true, fun _ => true, fun _ => true, fun _ => true,
       fun f _ => Except.ok f, fun _ => true, "ipdir"⟩
      (ConfigTree.set ConfigTree.empty "Global" "exec_files"
        (Value.list ["a.py", "b.ipy", "c.txt"]))
      ⟨[], [], [], [], [], 0⟩ =
      ⟨[LogMsg.debug "Running files in Global.exec_files...",
        LogMsg.info "Running file in user namespace: a.py",
        LogMsg.info "Running file in user namespace: b.ipy",
        LogMsg.warn "File does not have a .py or .ipy extension: <c.txt>"],
       [], [], ["a.py"], ["b.ipy"], 0⟩ := by
  rw [files_dispatch_by_extension
    ⟨fun _ => true, fun _ => true, fun _ => true, fun _ => true,
     fun f _ => Except.ok f, fun _ => true, "ipdir"⟩
    ⟨[], [], [], [], [], 0⟩ ConfigTree.empty rfl rfl rfl rfl rfl rfl rfl rfl]
  rfl

/-- C10: in the files pass, a listed name whose located path is not a
regular file is silently passed over — no log message, no dispatch, no
traceback, nothing raised — and the remaining entries are processed
exactly as if the entry were absent. -/
theorem missing_file_silently_skipped (env : ShellEnv) (st : ShellState)
    (t : ConfigTree) (fname full : String) (rest : List String)
    (hf : env.filefind fname [".", env.ipythondir] = Except.ok full)
    (hi : env.isfile full = false) :
    (∀ st0, fileLoop env (fname :: rest) st0 = fileLoop env rest st0)
    ∧ runExecFilesRun env
        (ConfigTree.set t "Global" "exec_files" (Value.list (fname :: rest))) st
      = runExecFilesRun env
        (ConfigTree.set t "Global" "exec_files" (Value.list rest)) st := by
  have hl : ∀ st0, fileLoop env (fname :: rest) st0 = fileLoop env rest st0 := by
    intro st0
    simp [fileLoop, hf, hi]
  refine ⟨hl, ?_⟩
  simp [runExecFilesRun, ConfigTree.lookup_set, pyIter, hl]

/-- Witness for C10: `ghost.txt` resolves but is not a regular file, so
the pass result equals the pass over the remaining list `['a.py']`. -/
theorem missing_file_silently_skipped_witness :
    runExecFilesRun
      ⟨fun _ => true, fun _ => true, fun _ => true, fun _ => true,
       fun f _ => Except.ok f, fun f => !(f == "ghost.txt"), "ipdir"⟩
      (ConfigTree.set ConfigTree.empty "Global" "exec_files"
        (Value.list ["ghost.txt", "a.py"]))
      ⟨[], [], [], [], [], 0⟩
    = runExecFilesRun
      ⟨fun _ => true, fun _ => true, fun _ => true, fun _ => true,
       fun f _ => Except.ok f, fun f => !(f == "ghost.txt"), "ipdir"⟩
      (ConfigTree.set ConfigTree.empty "Global" "exec_files"
        (Value.list ["a.py"]))
      ⟨[], [], [], [], [], 0⟩ :=
  (missing_file_silently_skipped
    ⟨fun _ => true, fun _ => true, fun _ => true, fun _ => true,
     fun f _ => Except.ok f, fun f => !(f == "ghost.txt"), "ipdir"⟩
    ⟨[], [], [], [], [], 0⟩ ConfigTree.empty "ghost.txt" "ghost.txt" ["a.py"]
    rfl rfl).2

/-- C9 (merge modelled from the spec, the `Application` base class being
outside this snapshot): `resolve` merges under precedence
`default < file < commandLine` — a present, non-sentinel command-line
value wins; with the command-line key absent or at the "unset" sentinel,
a present file value wins; with both out of the way, the default value is
used.  In particular a command-line key at the sentinel never overrides a
file or default value. -/
theorem resolve_precedence (d f c : ConfigTree) (s k : String) :
    (∀ v, c.lookup s k = some v → v ≠ Value.unset → resolve d f c s k = some v)
    ∧ ((c.lookup s k = none ∨ c.lookup s k = some Value.unset) →
        ∀ v, f.lookup s k = some v → resolve d f c s k = some v)
    ∧ ((c.lookup s k = none ∨ c.lookup s k = some Value.unset) →
        f.lookup s k = none → resolve d f c s k = d.lookup s k) := by
  refine ⟨?_, ?_, ?_⟩
  · intro v hcv hne
    cases v with
    | unset => exact absurd rfl hne
    | bool b => simp [resolve, hcv]
    | int n => simp [resolve, hcv]
    | str s' => simp [resolve, hcv]
    | list l => simp [resolve, hcv]
  · rintro (hc | hc) v hfv <;> simp [resolve, hc, hfv]
  · rintro (hc | hc) hfn <;> simp [resolve, hc, hfn]

/-- Witness for C9: a command-line key at the "unset" sentinel does not
shadow the file value. -/
theorem resolve_precedence_witness :
    resolve (ConfigTree.set ConfigTree.empty "A" "k" (Value.str "dflt"))
        (ConfigTree.set ConfigTree.empty "A" "k" (Value.str "file"))
        (ConfigTree.set ConfigTree.empty "A" "k" Value.unset)
        "A" "k" = some (Value.str "file") :=
  (resolve_precedence
    (ConfigTree.set ConfigTree.empty "A" "k" (Value.str "dflt"))
    (ConfigTree.set ConfigTree.empty "A" "k" (Value.str "file"))
    (ConfigTree.set ConfigTree.empty "A" "k" Value.unset)
    "A" "k").2.1 (Or.inr rfl) (Value.str "file") rfl

/-- C4: with `Global.quick` truthy in the command-line config, the file
stage yields the empty tree, so the resolved MasterConfig is the same
whatever the configuration file parses to — no key of it originates from
the file source.  (Merge modelled from the spec.) -/
theorem quick_skips_file_config (clc d : ConfigTree) (v : Value)
    (hq : clc.lookup "Global" "quick" = some v) (hv : truthy v = true) :
    (∀ fileSource, load_file_config clc fileSource = ConfigTree.empty)
    ∧ ∀ fileSource1 fileSource2 s k,
        resolve d (load_file_config clc fileSource1) clc s k
          = resolve d (load_file_config clc fileSource2) clc s k := by
  have h : ∀ fs, load_file_config clc fs = ConfigTree.empty := by
    intro fs
    simp [load_file_config, hq, hv]
  exact ⟨h, fun f1 f2 s k => by rw [h f1, h f2]⟩

/-- Witness for C4: with `-quick` on the command line, a non-empty file
source is discarded entirely. -/
theorem quick_skips_file_config_witness :
    load_file_config
      (ConfigTree.set ConfigTree.empty "Global" "quick" (Value.bool true))
      (ConfigTree.set ConfigTree.empty "InteractiveShell" "colors"
        (Value.str "Linux"))
      = ConfigTree.empty :=
  (quick_skips_file_config
    (ConfigTree.set ConfigTree.empty "Global" "quick" (Value.bool true))
    ConfigTree.empty (Value.bool true) rfl rfl).1
    (ConfigTree.set ConfigTree.empty "InteractiveShell" "colors"
      (Value.str "Linux"))

/-- C5: with `Global.extra_extension = e` (a string) on the command line,
`post_load_file_config` appends `e` to `file_config.Global.extensions` —
creating the list when the key is absent (`l0 = []`), appending to the
existing list `l0` when present — and removes `extra_extension` from the
command-line config, leaving its other keys untouched; if the command
line carries no `Global.extensions` key of its own, the resolved
extension list is exactly `l0 ++ [e]` (so exactly `[e]` when the file
config had no `extensions` key), whatever the default config holds for
the key: the file tree now has it present, so it shadows the default.
(Merge modelled from the spec.) -/
theorem extra_extension_appended (clc fc d clc' fc' : ConfigTree)
    (e : String) (l0 : List String)
    (hee : clc.lookup "Global" "extra_extension" = some (Value.str e))
    (hfe : fc.lookup "Global" "extensions" = none ∧ l0 = []
           ∨ fc.lookup "Global" "extensions" = some (Value.list l0))
    (hce : clc.lookup "Global" "extensions" = none)
    (hpost : post_load_file_config clc fc = some (clc', fc')) :
    fc'.lookup "Global" "extensions" = some (Value.list (l0 ++ [e]))
    ∧ clc'.lookup "Global" "extra_extension" = none
    ∧ (∀ s k, ¬(s = "Global" ∧ k = "extra_extension") →
        clc'.lookup s k = clc.lookup s k)
    ∧ resolve d fc' clc' "Global" "extensions"
        = some (Value.list (l0 ++ [e])) := by
  have hcomp : post_load_file_config clc fc
      = some (clc.del "Global" "extra_extension",
              fc.set "Global" "extensions" (Value.list (l0 ++ [e]))) := by
    rcases hfe with ⟨hn, hl⟩ | hsome
    · subst hl
      simp [post_load_file_config, hee, hn]
    · simp [post_load_file_config, hee, hsome]
  rw [hcomp] at hpost
  simp only [Option.some.injEq, Prod.mk.injEq] at hpost
  obtain ⟨hc', hf'⟩ := hpost
  subst hc'
  subst hf'
  refine ⟨?_, ?_, ?_, ?_⟩
  · simp [ConfigTree.lookup_set]
  · simp [ConfigTree.lookup_del]
  · intro s k h
    rw [ConfigTree.lookup_del, if_neg]
    rintro ⟨h1, h2⟩
    exact h ⟨h1.symm, h2.symm⟩
  · have h1 : (clc.del "Global" "extra_extension").lookup "Global" "extensions"
        = none := by
      rw [ConfigTree.lookup_del]
      simp [hce]
    have h2 : (fc.set "Global" "extensions" (Value.list (l0 ++ [e]))).lookup
        "Global" "extensions" = some (Value.list (l0 ++ [e])) := by
      simp [ConfigTree.lookup_set]
    simp [resolve, h1, h2]

/-- Witness for C5 at `extra_extension = 'foo'` against a file config
whose `Global.extensions` is already `['x']`: the value is appended,
resolving to `['x', 'foo']`. -/
theorem extra_extension_appended_witness :
    resolve ConfigTree.empty
      (ConfigTree.set
        (ConfigTree.set ConfigTree.empty "Global" "extensions"
          (Value.list ["x"]))
        "Global" "extensions" (Value.list ["x", "foo"]))
      (ConfigTree.del
        (ConfigTree.set ConfigTree.empty "Global" "extra_extension"
          (Value.str "foo"))
        "Global" "extra_extension")
      "Global" "extensions" = some (Value.list ["x", "foo"]) :=
  (extra_extension_appended
    (ConfigTree.set ConfigTree.empty "Global" "extra_extension"
      (Value.str "foo"))
    (ConfigTree.set ConfigTree.empty "Global" "extensions"
      (Value.list ["x"]))
    ConfigTree.empty
    (ConfigTree.del
      (ConfigTree.set ConfigTree.empty "Global" "extra_extension"
        (Value.str "foo"))
      "Global" "extra_extension")
    (ConfigTree.set
      (ConfigTree.set ConfigTree.empty "Global" "extensions"
        (Value.list ["x"]))
      "Global" "extensions" (Value.list ["x", "foo"]))
    "foo" ["x"] rfl (Or.inr rfl) rfl rfl).2.2.2
